import Mathlib

/-!
A shallow embedding of the rescuegps-backend drift engine, written to check
the natural-language specification against the JavaScript source.

Conventions of the embedding:
* JavaScript numbers are modelled as rationals (`ℚ`); every constant in the
  source is exact in decimal, so no precision is lost where a claim is about
  branch structure, table lookups or rational arithmetic.
* `Math.random()` draws are explicit parameters (one per draw site), so a
  randomized routine becomes a deterministic function of its draws.
* Transcendental helpers (`Math.sqrt`, `Math.cos`, `Math.sin`) are abstracted
  as function parameters (`sqrtF`, `cosdeg`, `sindeg`, ...) or as the drawn
  direction unit vector `(cosA, sinA)`; theorems that depend on them carry the
  defining property as a hypothesis (for instance `sqrtF x ^ 2 = x`).
* JavaScript falsiness of a number is `= 0`; `x || d` on numbers becomes
  `jsOrQ`, on strings `Option.getD`.
-/

/-- JavaScript `x || d` for an optional number: `undefined` and `0` both fall
back to the default. -/
def jsOrQ (x : Option ℚ) (d : ℚ) : ℚ :=
  match x with
  | none => d
  | some v => if v = 0 then d else v

/-- Particle status as used throughout the engine
(`'active' | 'beached' | 'recovered'`). -/
inductive Status where
  | active
  | beached
  | recovered
deriving DecidableEq

/-- A drift particle as mutated by `TimeSteppingSimulator.step`
(src/drift-engine/core/TimeSteppingSimulator.js). -/
structure Particle where
  id : ℕ
  lat : ℚ
  lng : ℚ
  status : Status
  age : ℚ
  depth : ℚ
  reflectionCount : ℕ
  beachedAt : Option ℚ
  beachType : Option String
  beachingEffects : List String
deriving DecidableEq

/-- One entry of `this.stats.beachingLocations`
(TimeSteppingSimulator.js lines 195-203). -/
structure BeachRecord where
  lat : ℚ
  lng : ℚ
  time : ℚ
  hour : ℚ
  depth : ℚ
  shoreType : String
  effects : List String
deriving DecidableEq

/-- The driver statistics record (`this.stats` of TimeSteppingSimulator.js,
lines 45-52). -/
structure Stats where
  totalBeached : ℕ
  beachingLocations : List BeachRecord
  shallowWaterEncounters : ℕ
  surfZoneEncounters : ℕ
  landExclusions : ℕ
  reflections : ℕ
deriving DecidableEq

/-- All-zero statistics, the driver constructor state. -/
def Stats.init : Stats := ⟨0, [], 0, 0, 0, 0⟩

/-! ## SurvivalAnalyzer (src/unnamed/part_001, SurvivalAnalyzer.js) -/

/-- Victim profile `{ age, hasPFD, clothing }`; `gender` is never read by the
analyzer. -/
structure VictimProfile where
  age : Option ℚ
  hasPFD : Bool
  clothing : Option String

/-- Environmental conditions consumed by the survival analyzer. -/
structure SurvivalConditions where
  waterTemp : ℚ
  airTemp : ℚ
  seaState : ℚ

/-- `getBaseSurvivalRate` (part_001 lines 58-66): `profile.age || 40`, then the
age table. -/
def getBaseSurvivalRate (profile : VictimProfile) : ℚ :=
  let age := jsOrQ profile.age 40
  if age < 18 then 0.85
  else if age < 30 then 0.90
  else if age < 50 then 0.88
  else if age < 65 then 0.80
  else 0.70

/-- `getTemperatureFactor` (part_001 lines 72-79). -/
def getTemperatureFactor (waterTemp : ℚ) : ℚ :=
  if waterTemp > 80 then 1.0
  else if waterTemp > 70 then 0.95
  else if waterTemp > 60 then 0.85
  else if waterTemp > 50 then 0.65
  else if waterTemp > 40 then 0.40
  else 0.20

/-- `getTimeFactor` (part_001 lines 84-91). -/
def getTimeFactor (hours : ℚ) : ℚ :=
  if hours < 1 then 1.0
  else if hours < 3 then 0.95
  else if hours < 6 then 0.85
  else if hours < 12 then 0.70
  else if hours < 24 then 0.50
  else 0.30

/-- `getClothingFactor` (part_001 lines 96-107): the object lookup with
`factors[clothing] || 0`; an unknown key gives `undefined || 0 = 0`, and the
`light` entry is `0` itself, so the fallback and the entry coincide. -/
def getClothingFactor (clothing : String) : ℚ :=
  if clothing = "none" then -0.1
  else if clothing = "light" then 0
  else if clothing = "normal" then 0.05
  else if clothing = "heavy" then 0.1
  else if clothing = "wetsuit" then 0.2
  else if clothing = "drysuit" then 0.3
  else 0

/-- `estimateTimeRemaining` (part_001 lines 112-124). -/
def estimateTimeRemaining (probability waterTemp : ℚ) : ℚ :=
  let baseTime : ℚ :=
    if waterTemp > 80 then 48
    else if waterTemp > 70 then 24
    else if waterTemp > 60 then 12
    else if waterTemp > 50 then 6
    else if waterTemp > 40 then 3
    else 1.5
  baseTime * probability

/-- `getRecommendations` (part_001 lines 129-148). -/
def getRecommendations (probability : ℚ) (conditions : SurvivalConditions) :
    List String :=
  (if probability < 0.5 then
    ["URGENT: Deploy all available assets immediately",
     "Prioritize high-density search areas"]
  else []) ++
  (if conditions.waterTemp < 60 then
    ["Cold water: Hypothermia risk - time is critical",
     "Prepare medical support for hypothermia treatment"]
  else []) ++
  (if conditions.seaState > 4 then
    ["Rough seas: Victim may be difficult to spot visually",
     "Consider aerial search assets"]
  else [])

/-- The factor breakdown returned by `analyze`. -/
structure SurvivalFactors where
  baseRate : ℚ
  temperature : ℚ
  time : ℚ
  pfd : ℚ
  clothing : ℚ
deriving DecidableEq

/-- The record returned by `SurvivalAnalyzer.analyze`. -/
structure SurvivalResult where
  probability : ℚ
  timeRemaining : ℚ
  urgency : String
  factors : SurvivalFactors
  recommendations : List String
deriving DecidableEq

/-- `Math.min` on two numbers. -/
def jsMin (a b : ℚ) : ℚ := if a ≤ b then a else b

/-- `Math.max` on two numbers. -/
def jsMax (a b : ℚ) : ℚ := if b ≤ a then a else b

/-- `Math.max(0, Math.min(1, x))` as used by the analyzer. -/
def clamp01 (x : ℚ) : ℚ := jsMax 0 (jsMin 1 x)

/-- `SurvivalAnalyzer.analyze` (part_001 lines 15-53). -/
def SurvivalAnalyzer.analyze (victimProfile : VictimProfile)
    (environmentalConditions : SurvivalConditions) (elapsedHours : ℚ) :
    SurvivalResult :=
  let baseRate := getBaseSurvivalRate victimProfile
  let tempFactor := getTemperatureFactor environmentalConditions.waterTemp
  let timeFactor := getTimeFactor elapsedHours
  let pfdBonus : ℚ := if victimProfile.hasPFD then 0.2 else 0
  let clothingBonus := getClothingFactor (victimProfile.clothing.getD "light")
  let survivalProbability :=
    clamp01 (baseRate * tempFactor * timeFactor + pfdBonus + clothingBonus)
  let timeRemaining :=
    estimateTimeRemaining survivalProbability environmentalConditions.waterTemp
  let urgency :=
    if survivalProbability < 0.3 then "critical"
    else if survivalProbability < 0.5 then "urgent"
    else if survivalProbability < 0.75 then "high"
    else "moderate"
  { probability := survivalProbability
    timeRemaining := timeRemaining
    urgency := urgency
    factors := ⟨baseRate, tempFactor, timeFactor, pfdBonus, clothingBonus⟩
    recommendations :=
      getRecommendations survivalProbability environmentalConditions }

/-! ## ShallowWaterPhysics (src/drift-engine/physics/ShallowWaterPhysics.js) -/

/-- Shore interaction parameters of one shore kind
(ShallowWaterPhysics.js lines 28-77). -/
structure ShoreParams where
  stickiness : ℚ
  reflection : ℚ
  roughness : ℚ
  permeability : ℚ
deriving DecidableEq

/-- `this.shoreTypes[shoreType] || this.shoreTypes['sandy']`: the table of
ShallowWaterPhysics.js lines 28-77 with the sandy fallback of line 496. -/
def ShallowWaterPhysics.shoreTypes (t : String) : ShoreParams :=
  if t = "rocky" then ⟨0.85, 0.15, 0.05, 0.0⟩
  else if t = "sandy" then ⟨0.60, 0.30, 0.02, 0.1⟩
  else if t = "muddy" then ⟨0.95, 0.05, 0.01, 0.05⟩
  else if t = "marsh" then ⟨1.0, 0.0, 0.1, 0.2⟩
  else if t = "mangrove" then ⟨1.0, 0.0, 0.15, 0.3⟩
  else if t = "seawall" then ⟨0.1, 0.9, 0.001, 0.0⟩
  else if t = "riprap" then ⟨0.4, 0.5, 0.08, 0.15⟩
  else if t = "coral" then ⟨0.7, 0.2, 0.1, 0.05⟩
  else ⟨0.60, 0.30, 0.02, 0.1⟩

/-- The outcome record `{ beached, reflected, newPosition }` of
`checkShoreInteraction`. -/
inductive ShoreOutcome where
  | stay
  | beached
  | reflected (lat lng : ℚ)
deriving DecidableEq

/-- `ShallowWaterPhysics.checkShoreInteraction` (lines 495-531).
`rand` is the `Math.random()` branch draw, `randAngle` and `randDist` the two
draws of the reflection branch; `cosdeg`/`sindeg` stand for
`x => Math.cos(x * Math.PI / 180)` and its sine twin (the source converts the
reflection angle from degrees to radians before applying `Math.cos`). -/
def ShallowWaterPhysics.checkShoreInteraction (cosdeg sindeg : ℚ → ℚ)
    (plat plng : ℚ) (shoreType : String) (depth shoreNormal : ℚ)
    (rand randAngle randDist : ℚ) : ShoreOutcome :=
  let shore := ShallowWaterPhysics.shoreTypes shoreType
  if depth > 0.5 then .stay
  else if rand < shore.stickiness then .beached
  else if rand < shore.stickiness + shore.reflection then
    let reflectionAngle := shoreNormal + 180 + (randAngle - 0.5) * 60
    let reflectionDistance := 0.01 + randDist * 0.02
    .reflected (plat + reflectionDistance * cosdeg reflectionAngle / 111.32)
      (plng + reflectionDistance * sindeg reflectionAngle / 111.32)
  else .stay

/-- The two conditional sub-branches of `ShallowWaterPhysics.calculate`
(lines 88-152): the early return when `depth > this.shallowWaterThreshold`
(line 98), the surf-zone branch `depth <= this.surfZoneThreshold` (line 134)
and the very-shallow branch `depth <= this.veryShallowThreshold` (line 143),
with the thresholds 20, 5 and 2 of lines 23-25. -/
structure CalcBranches where
  surfZone : Bool
  veryShallow : Bool
deriving DecidableEq

/-- Which sub-processes `ShallowWaterPhysics.calculate` runs at a given
depth. -/
def ShallowWaterPhysics.calculateBranches (depth : ℚ) : CalcBranches :=
  if depth > 20 then ⟨false, false⟩
  else ⟨depth ≤ 5, depth ≤ 2⟩

/-! ## TimeSteppingSimulator (src/drift-engine/core/TimeSteppingSimulator.js) -/

/-- The driver's shallow-water gate `if (depth < 20)`
(TimeSteppingSimulator.js line 97). -/
def TimeSteppingSimulator.shallowWaterGate (depth : ℚ) : Bool := depth < 20

/-- `TimeSteppingSimulator.getDepthAt` (lines 209-222) on a cache miss:
`20 + Math.random() * 30` with the draw `randDepth` explicit. A cache hit
replays a value produced by this same expression, so every value the source
returns is `getDepthAt u` for some draw `u` in `[0, 1)`. -/
def TimeSteppingSimulator.getDepthAt (randDepth : ℚ) : ℚ := 20 + randDepth * 30

/-- `TimeSteppingSimulator.calculateDiffusion` (lines 275-284): the distance
is `Math.sqrt(diffusionRate * deltaHours)` with `diffusionRate = 0.001`, and
`(cosA, sinA)` is the unit vector of the uniformly drawn angle
(`Math.cos(angle)`, `Math.sin(angle)` for `angle = Math.random() * 2 * PI`).
`sqrtF` stands for `Math.sqrt`. Note there is no uniform magnitude factor. -/
def TimeSteppingSimulator.calculateDiffusion (sqrtF : ℚ → ℚ)
    (cosA sinA deltaHours : ℚ) : ℚ × ℚ :=
  let diffusionRate : ℚ := 0.001
  let distance := sqrtF (diffusionRate * deltaHours)
  (distance * cosA / 111.32, distance * sinA / 111.32)

/-- The per-particle displacement of `DiffusionCalculator.calculate`
(src/drift-engine/physics/DiffusionCalculator.js lines 17-31):
`randomDistance = diffusionDistance * Math.random()` (the draw `randMag`)
before the conversion to degrees. -/
def DiffusionCalculator.displacement (sqrtF : ℚ → ℚ)
    (cosA sinA randMag deltaHours : ℚ) : ℚ × ℚ :=
  let diffusionDistance := sqrtF (0.001 * deltaHours)
  let randomDistance := diffusionDistance * randMag
  (randomDistance * cosA / 111.32, randomDistance * sinA / 111.32)

/-- The squared length, in km, of a `(dlat, dlng)` degree displacement under
the source's own `1 degree = 111.32 km` scale (both components are divided by
111.32 when produced). -/
def kmLengthSq (d : ℚ × ℚ) : ℚ := (d.1 * 111.32) ^ 2 + (d.2 * 111.32) ^ 2

/-- The per-particle, per-step inputs of `TimeSteppingSimulator.step`
(lines 61-183) that the embedding abstracts: the depth field queried by
`getDepthAt`, the summed wind + current + wave + leeway drift of lines 81-94
(trigonometric, hence abstracted as the summed pair), the
`ShallowWaterPhysics.calculate` result of line 113 (same reason), the random
draws, and the geodata stubs `getShoreType` / `getShoreNormal`. The claims
proved below hold for every value of these inputs, so abstracting them only
strengthens the statements. -/
structure StepOracle where
  depthAt : ℚ → ℚ → ℚ
  driftLat : ℚ
  driftLng : ℚ
  shallowLat : ℚ
  shallowLng : ℚ
  shallowBeachProb : ℚ
  shallowEffects : List String
  randBeach : ℚ
  sqrtF : ℚ → ℚ
  cosA : ℚ
  sinA : ℚ
  shoreType : String
  shoreNormal : ℚ
  randShore : ℚ
  randShoreAngle : ℚ
  randShoreDist : ℚ
  cosdeg : ℚ → ℚ
  sindeg : ℚ → ℚ

/-- `TimeSteppingSimulator.beachParticle` (lines 188-204). -/
def TimeSteppingSimulator.beachParticle (t : ℚ) (p : Particle) (depth : ℚ)
    (effects : List String) (shoreType : String) (st : Stats) :
    Particle × Stats :=
  ({ p with
      status := .beached
      beachedAt := some t
      beachingEffects := effects
      beachType := some shoreType },
   { st with
      totalBeached := st.totalBeached + 1
      beachingLocations := st.beachingLocations ++
        [⟨p.lat, p.lng, t, t / 3600, depth, shoreType, effects⟩] })

/-- Lines 134-174 of `step`: add diffusion, form the attempted position,
query its depth, and either run the land-exclusion shore interaction or
accept the move; finally advance `age`. `p1.depth` is the current-position
depth the driver passes to `checkShoreInteraction` (line 154). -/
def TimeSteppingSimulator.finishMove (o : StepOracle) (t deltaSeconds : ℚ)
    (p1 : Particle) (st : Stats) (totalLat totalLng : ℚ) : Particle × Stats :=
  let deltaHours := deltaSeconds / 3600
  let diffusion := TimeSteppingSimulator.calculateDiffusion o.sqrtF o.cosA
    o.sinA deltaHours
  let totalLat := totalLat + diffusion.1
  let totalLng := totalLng + diffusion.2
  let newLat := p1.lat + totalLat
  let newLng := p1.lng + totalLng
  let newDepth := o.depthAt newLat newLng
  if newDepth ≤ 0 then
    let st1 := { st with landExclusions := st.landExclusions + 1 }
    match ShallowWaterPhysics.checkShoreInteraction o.cosdeg o.sindeg
        p1.lat p1.lng o.shoreType p1.depth o.shoreNormal
        o.randShore o.randShoreAngle o.randShoreDist with
    | .beached =>
        TimeSteppingSimulator.beachParticle t p1 p1.depth ["land_contact"]
          o.shoreType st1
    | .reflected rlat rlng =>
        ({ p1 with
            lat := rlat
            lng := rlng
            reflectionCount := p1.reflectionCount + 1
            age := p1.age + deltaSeconds },
         { st1 with reflections := st1.reflections + 1 })
    | .stay => ({ p1 with age := p1.age + deltaSeconds }, st1)
  else
    ({ p1 with lat := newLat, lng := newLng, age := p1.age + deltaSeconds }, st)

/-- One particle's pass through the `forEach` body of
`TimeSteppingSimulator.step` (lines 67-175). `t` is `this.currentTime`. -/
def TimeSteppingSimulator.stepParticle (o : StepOracle) (t deltaSeconds : ℚ)
    (p : Particle) (st : Stats) : Particle × Stats :=
  if p.status ≠ .active then (p, st)
  else
    let depth := o.depthAt p.lat p.lng
    let p1 := { p with depth := depth }
    let totalLat := o.driftLat
    let totalLng := o.driftLng
    if TimeSteppingSimulator.shallowWaterGate depth then
      let st1 := { st with
        shallowWaterEncounters := st.shallowWaterEncounters + 1 }
      let totalLat := totalLat + o.shallowLat
      let totalLng := totalLng + o.shallowLng
      let st2 := if depth ≤ 5 then
        { st1 with surfZoneEncounters := st1.surfZoneEncounters + 1 }
      else st1
      if o.shallowBeachProb > 0 ∧ o.randBeach < o.shallowBeachProb then
        TimeSteppingSimulator.beachParticle t p1 depth o.shallowEffects
          "unknown" st2
      else TimeSteppingSimulator.finishMove o t deltaSeconds p1 st2 totalLat
        totalLng
    else TimeSteppingSimulator.finishMove o t deltaSeconds p1 st totalLat
      totalLng

/-- One particle stepped through a whole run: one `StepOracle` per step, time
advancing by `deltaSeconds` each step. -/
def TimeSteppingSimulator.runParticle (os : List StepOracle)
    (deltaSeconds t0 : ℚ) (p : Particle) (st : Stats) : Particle × Stats :=
  match os with
  | [] => (p, st)
  | o :: rest =>
      let r := TimeSteppingSimulator.stepParticle o t0 deltaSeconds p st
      TimeSteppingSimulator.runParticle rest deltaSeconds (t0 + deltaSeconds)
        r.1 r.2

/-- The attempted position of `step` (lines 139-141): current position plus
the summed drift (shallow-water contribution included exactly when the gate
of line 97 fired) plus diffusion. -/
def TimeSteppingSimulator.attemptedPos (o : StepOracle) (deltaSeconds : ℚ)
    (p : Particle) : ℚ × ℚ :=
  let depth := o.depthAt p.lat p.lng
  let deltaHours := deltaSeconds / 3600
  let diffusion := TimeSteppingSimulator.calculateDiffusion o.sqrtF o.cosA
    o.sinA deltaHours
  if TimeSteppingSimulator.shallowWaterGate depth then
    (p.lat + (o.driftLat + o.shallowLat + diffusion.1),
     p.lng + (o.driftLng + o.shallowLng + diffusion.2))
  else
    (p.lat + (o.driftLat + diffusion.1), p.lng + (o.driftLng + diffusion.2))

/-- A stand-in for `Math.sqrt` that agrees with the real square root at the
one point the diffusion counterexample queries: `sqrt 0.01 = 0.1`. -/
def sqrtStub : ℚ → ℚ := fun x => if x = 0.01 then 0.1 else 0

/-- A particle fresh from initialization, at the Galveston LKP the spec's
scenarios use, before any step. -/
def p0 : Particle := ⟨0, 29.3, -94.8, .active, 0, 0, 0, none, none, []⟩

/-- Concrete per-step inputs for the shore-interaction counterexample: depth
30 m at the particle's current position, land (depth -1) everywhere else, a
sandy shore, branch draw 0.1, and a net drift of 0.1 degree of latitude. The
trigonometric stubs are the constant east-pointing unit vector; no
conclusion depends on them. -/
def c1Oracle : StepOracle where
  depthAt := fun lat lng => if lat = 29.3 ∧ lng = -94.8 then 30 else -1
  driftLat := 0.1
  driftLng := 0
  shallowLat := 0
  shallowLng := 0
  shallowBeachProb := 0
  shallowEffects := []
  randBeach := 1
  sqrtF := fun _ => 0
  cosA := 1
  sinA := 0
  shoreType := "sandy"
  shoreNormal := 0
  randShore := 0.1
  randShoreAngle := 0.5
  randShoreDist := 0.5
  cosdeg := fun _ => 1
  sindeg := fun _ => 0

/-- A particle at the origin, used by witnesses. -/
def pOrigin : Particle := ⟨0, 0, 0, .active, 0, 0, 0, none, none, []⟩

/-- Concrete per-step inputs under which the land branch does beach the
particle: depth 0.3 m at the current position (so the interaction guard
passes), land everywhere else, sandy shore, branch draw 0.5 below the sandy
stickiness 0.6. -/
def c1WitnessOracle : StepOracle where
  depthAt := fun lat lng => if lat = 0 ∧ lng = 0 then 0.3 else -1
  driftLat := 0.1
  driftLng := 0
  shallowLat := 0
  shallowLng := 0
  shallowBeachProb := 0
  shallowEffects := []
  randBeach := 1
  sqrtF := fun _ => 0
  cosA := 1
  sinA := 0
  shoreType := "sandy"
  shoreNormal := 90
  randShore := 0.5
  randShoreAngle := 0.5
  randShoreDist := 0.5
  cosdeg := fun _ => 1
  sindeg := fun _ => 0

/-! ## SimulationController (src/unnamed/part_001, SimulationController.js) -/

/-- A Last Known Position `{ lat, lng }`. -/
structure Lkp where
  lat : ℚ
  lng : ℚ
deriving DecidableEq

/-- The configuration object `startSimulation` receives; absent fields are
`none`. -/
structure SimConfig where
  lkp : Option Lkp
  objectType : Option String
  particleCount : Option ℚ
  durationHours : Option ℚ
deriving DecidableEq

/-- The registry entry `startSimulation` stores (part_001 lines 219-230),
with the two defaulted fields it passes to the simulator (lines 213-214). -/
structure Simulation where
  id : String
  status : String
  progress : ℚ
  config : SimConfig
  objectType : String
  durationHours : ℚ
deriving DecidableEq

/-- The object `startSimulation` returns (part_001 lines 237-241). -/
structure StartResponse where
  simulationId : String
  status : String
  estimatedDuration : ℚ
deriving DecidableEq

/-- `SimulationController.startSimulation` (part_001 lines 192-242): the only
validation is the falsy check
`!config.lkp || !config.lkp.lat || !config.lkp.lng`; on success the
simulation is stored in the registry (modelled as an association list, in
insertion order) and `{ simulationId, status: 'started', estimatedDuration:
config.durationHours || 72 }` is returned. `id` stands for the generated
`sim_...` identifier. -/
def SimulationController.startSimulation (config : SimConfig) (id : String)
    (sims : List (String × Simulation)) :
    Except String (List (String × Simulation) × StartResponse) :=
  match config.lkp with
  | none => .error "Invalid LKP coordinates"
  | some lkp =>
    if lkp.lat = 0 ∨ lkp.lng = 0 then .error "Invalid LKP coordinates"
    else
      let simulation : Simulation :=
        { id := id
          status := "running"
          progress := 0
          config := config
          objectType := config.objectType.getD "person-in-water"
          durationHours := jsOrQ config.durationHours 72 }
      .ok (sims ++ [(id, simulation)],
        ⟨id, "started", jsOrQ config.durationHours 72⟩)

/-- `LeewayCalculator.leewayFactors[objectType] || leewayFactors['person-in-water']`
(src/drift-engine/physics/LeewayCalculator.js lines 14-31 and 41): the
`(downwind, crosswind)` pair, an unknown object type falling back to
person-in-water. -/
def LeewayCalculator.leewayFactors (t : String) : ℚ × ℚ :=
  if t = "person-in-water" then (0.03, 15)
  else if t = "person-with-pfd" then (0.04, 20)
  else if t = "person-in-drysuit" then (0.05, 25)
  else if t = "life-raft-4" then (0.06, 10)
  else if t = "life-raft-6" then (0.065, 12)
  else if t = "life-raft-10-plus" then (0.07, 15)
  else if t = "small-vessel" then (0.05, 5)
  else if t = "medium-vessel" then (0.04, 3)
  else if t = "sailboat" then (0.08, 20)
  else if t = "kayak" then (0.045, 18)
  else if t = "canoe" then (0.05, 20)
  else if t = "surfboard" then (0.035, 25)
  else if t = "paddleboard" then (0.04, 22)
  else if t = "wood-debris" then (0.02, 30)
  else if t = "plastic-debris" then (0.045, 25)
  else if t = "cooler" then (0.055, 15)
  else (0.03, 15)

/-- The per-simulation state `runSimulation` mutates. -/
structure SimState where
  status : String
  progress : ℚ
  stepsExecuted : ℕ
deriving DecidableEq

/-- `SimulationController.stopSimulation` (part_001 lines 422-431): mark a
running simulation stopped; idempotent; nothing else. -/
def SimulationController.stopSimulation (s : SimState) : SimState :=
  if s.status = "running" then { s with status := "stopped" } else s

/-- `SimulationController.runSimulation` (part_001 lines 247-276): the loop
body never reads `sim.status`, so a concurrent `stopSimulation` — modelled as
arriving at the iteration boundary `stopAt` (the `await` yield points of line
262 are such boundaries) — has no effect on the remaining iterations; after
the loop the status is unconditionally overwritten with `completed` and the
progress with 100 (lines 267-270). -/
def SimulationController.runSimulation (totalSteps : ℕ) (stopAt : Option ℕ)
    (s : SimState) : SimState :=
  let r := (List.range totalSteps).foldl
    (fun acc i =>
      let acc1 := if stopAt = some i then SimulationController.stopSimulation
        acc else acc
      { acc1 with
          stepsExecuted := acc1.stepsExecuted + 1
          progress := ((i + 1 : ℚ) / totalSteps) * 100 }) s
  { r with status := "completed", progress := 100 }

/-- The unknown-object-type, negative-duration configuration the validation
counterexample submits. -/
def c5Config : SimConfig := ⟨some ⟨29.3, -94.8⟩, some "submarine", none,
  some (-5)⟩

/-! ## DensityAnalyzer (src/unnamed/part_000, DensityAnalyzer.js) -/

/-- One cell of the `grid` object (part_000 lines 30-37). The JS object is
keyed by the string `cellLat,cellLng`; distinct `(cellLat, cellLng)` pairs
give distinct keys and `Object.values` returns such entries in insertion
order, so the grid is modelled as an insertion-ordered list keyed by the
pair. -/
structure GridCell where
  lat : ℚ
  lng : ℚ
  count : ℕ
  particles : List ℕ
deriving DecidableEq

/-- One entry of the heat map (part_000 lines 49-54). -/
structure HeatCell where
  lat : ℚ
  lng : ℚ
  weight : ℚ
  count : ℕ
deriving DecidableEq

/-- The record `DensityAnalyzer.analyze` returns (part_000 lines 59-65). -/
structure DensityResult where
  heatMap : List HeatCell
  grid : List GridCell
  maxDensity : ℕ
  totalCells : ℕ
  gridSize : ℚ
deriving DecidableEq

/-- The heat-map sort order: the JS comparator `(a, b) => b.count - a.count`
(part_000 line 57), i.e. descending by count; `Array.sort` is stable, as is
`List.insertionSort` of this relation. -/
def heatGE (a b : HeatCell) : Prop := b.count ≤ a.count

instance : DecidableRel heatGE := fun _ _ => Nat.decLe _ _

instance : IsTotal HeatCell heatGE := ⟨fun a b => Nat.le_total b.count a.count⟩

instance : IsTrans HeatCell heatGE :=
  ⟨fun _ _ _ hab hbc => Nat.le_trans hbc hab⟩

/-- Lines 30-44 of part_000 for one particle whose cell key is
`(cellLat, cellLng)`: find the cell (or append a fresh one with count 0) and
increment its count and particle list; also return the touched cell's new
count (what `grid[key].count` is when line 42 compares it with
`maxDensity`). -/
def DensityAnalyzer.bump (cellLat cellLng : ℚ) (pid : ℕ) :
    List GridCell → List GridCell × ℕ
  | [] => ([⟨cellLat, cellLng, 1, [pid]⟩], 1)
  | c :: rest =>
    if c.lat = cellLat ∧ c.lng = cellLng then
      (({ c with count := c.count + 1, particles := c.particles ++ [pid] } :
        GridCell) :: rest, c.count + 1)
    else
      let r := DensityAnalyzer.bump cellLat cellLng pid rest
      (c :: r.1, r.2)

/-- The `forEach` body of part_000 lines 25-45: bin one particle and update
`maxDensity` (line 42: only when the touched cell's count exceeds it). -/
def DensityAnalyzer.binStep (gridSize : ℚ) (acc : List GridCell × ℕ)
    (p : Particle) : List GridCell × ℕ :=
  let cellLat := (⌊p.lat / gridSize⌋ : ℚ) * gridSize
  let cellLng := (⌊p.lng / gridSize⌋ : ℚ) * gridSize
  let r := DensityAnalyzer.bump cellLat cellLng p.id acc.1
  (r.1, if r.2 > acc.2 then r.2 else acc.2)

/-- `DensityAnalyzer.analyze` (part_000 lines 17-66): filter the active
particles, bin them, convert to heat-map entries with
`weight = count / maxDensity`, and sort by count descending. -/
def DensityAnalyzer.analyze (gridSize : ℚ) (particles : List Particle) :
    DensityResult :=
  let activeParticles := particles.filter (fun p => decide (p.status = .active))
  let r := activeParticles.foldl (DensityAnalyzer.binStep gridSize) ([], 0)
  let heatMap := r.1.map (fun c =>
    { lat := c.lat + gridSize / 2
      lng := c.lng + gridSize / 2
      weight := (c.count : ℚ) / (r.2 : ℚ)
      count := c.count : HeatCell })
  { heatMap := List.insertionSort heatGE heatMap
    grid := r.1
    maxDensity := r.2
    totalCells := r.1.length
    gridSize := gridSize }

/-- Concrete step inputs whose depth field is the built-in depth source at
draw 1/2 (35 m everywhere); the other fields are arbitrary values that the
inertness claim quantifies over anyway. -/
def c9Oracle : StepOracle where
  depthAt := fun _ _ => TimeSteppingSimulator.getDepthAt (1 / 2)
  driftLat := 0.01
  driftLng := 0.02
  shallowLat := 5
  shallowLng := 5
  shallowBeachProb := 1
  shallowEffects := ["wave_breaking"]
  randBeach := 0
  sqrtF := fun _ => 0
  cosA := 1
  sinA := 0
  shoreType := "sandy"
  shoreNormal := 0
  randShore := 0
  randShoreAngle := 0
  randShoreDist := 0
  cosdeg := fun _ => 1
  sindeg := fun _ => 0

/-! ## ProbabilityCalculator (src/drift-engine/analysis/ProbabilityCalculator.js) -/

/-- A bare `{ lat, lng }` point. -/
structure Pt where
  lat : ℚ
  lng : ℚ
deriving DecidableEq

/-- `ProbabilityCalculator.calculateCentroid` (lines 53-61). -/
def ProbabilityCalculator.calculateCentroid (particles : List Particle) :
    Pt :=
  ⟨(particles.map Particle.lat).sum / (particles.length : ℚ),
   (particles.map Particle.lng).sum / (particles.length : ℚ)⟩

/-- The distance-sort order of line 30, `(a, b) => a.distance - b.distance`,
on particles decorated with their distance: ascending, and stable like
`Array.sort`. -/
def distLE (a b : Particle × ℚ) : Prop := a.2 ≤ b.2

instance : DecidableRel distLE := fun a b =>
  inferInstanceAs (Decidable (a.2 ≤ b.2))

/-- The lat-then-lng sort order of `convexHull` line 94,
`(a, b) => a.lat - b.lat || a.lng - b.lng`. -/
def latLngLE (a b : Pt) : Prop :=
  a.lat < b.lat ∨ (a.lat = b.lat ∧ a.lng ≤ b.lng)

instance : DecidableRel latLngLE := fun a b =>
  inferInstanceAs (Decidable (a.lat < b.lat ∨ (a.lat = b.lat ∧ a.lng ≤ b.lng)))

/-- The cross product of lines 97-99, over `(lat, lng)` treated as Cartesian
coordinates. -/
def ProbabilityCalculator.cross (o a b : Pt) : ℚ :=
  (a.lat - o.lat) * (b.lng - o.lng) - (a.lng - o.lng) * (b.lat - o.lat)

/-- One iteration of the monotone-chain while-pop loop (lines 103-108 and
112-117), with the stack kept top-first. -/
def ProbabilityCalculator.hullStep (p : Pt) : List Pt → List Pt
  | b :: a :: rest =>
    if ProbabilityCalculator.cross a b p ≤ 0 then
      ProbabilityCalculator.hullStep p (a :: rest)
    else p :: b :: a :: rest
  | acc => p :: acc

/-- One half (lower or upper) of the hull: push every point through
`hullStep`, then put the stack back in push order. -/
def ProbabilityCalculator.halfHull (pts : List Pt) : List Pt :=
  (pts.foldl (fun acc p => ProbabilityCalculator.hullStep p acc) []).reverse

/-- `ProbabilityCalculator.convexHull` (lines 92-124): sort by lat then lng,
build the two half hulls (the upper one over the reversed order), drop the
repeated last point of each (`upper.pop(); lower.pop()`) and concatenate. -/
def ProbabilityCalculator.convexHull (points : List Pt) : List Pt :=
  let sorted := List.insertionSort latLngLE points
  let lower := ProbabilityCalculator.halfHull sorted
  let upper := ProbabilityCalculator.halfHull sorted.reverse
  lower.dropLast ++ upper.dropLast

/-- `ProbabilityCalculator.createPolygon` (lines 82-87). -/
def ProbabilityCalculator.createPolygon (particles : List (Particle × ℚ)) :
    List Pt :=
  if particles.length < 3 then []
  else ProbabilityCalculator.convexHull
    (particles.map (fun pd => ⟨pd.1.lat, pd.1.lng⟩))

/-- `ProbabilityCalculator.calculateConfidence` (lines 129-146); `dist`
stands for the haversine `calculateDistance` (lines 66-77) and `sqrtF` for
`Math.sqrt`, both trigonometric and hence abstracted. -/
def ProbabilityCalculator.calculateConfidence (dist : ℚ → ℚ → ℚ → ℚ → ℚ)
    (sqrtF : ℚ → ℚ) (particles : List Particle) : ℚ :=
  if particles.length = 0 then 0
  else
    let centroid := ProbabilityCalculator.calculateCentroid particles
    let distances := particles.map
      (fun p => dist p.lat p.lng centroid.lat centroid.lng)
    let avgDistance := distances.sum / (distances.length : ℚ)
    let variance := (distances.map (fun d => (d - avgDistance) ^ 2)).sum /
      (distances.length : ℚ)
    let stdDev := sqrtF variance
    jsMax 0 (jsMin 1 (1 - stdDev / (avgDistance + 1)))

/-- What `ProbabilityCalculator.calculate` returns (lines 13-48); the early
return of lines 16-23 carries no centroid, hence the `Option`. -/
structure ProbabilityResult where
  polygon50 : List Pt
  polygon90 : List Pt
  polygon95 : List Pt
  confidence : ℚ
  centroid : Option Pt
deriving DecidableEq

/-- `ProbabilityCalculator.calculate` (lines 13-48): filter the active
particles; fewer than 3 gives empty polygons and confidence 0; otherwise
sort by distance to the centroid (`dist` standing for the haversine
`calculateDistance`), cut the `Math.floor(length * q)` prefixes and hull
them. -/
def ProbabilityCalculator.calculate (dist : ℚ → ℚ → ℚ → ℚ → ℚ)
    (sqrtF : ℚ → ℚ) (particles : List Particle) : ProbabilityResult :=
  let activeParticles := particles.filter (fun p => decide (p.status = .active))
  if activeParticles.length < 3 then ⟨[], [], [], 0, none⟩
  else
    let centroid := ProbabilityCalculator.calculateCentroid activeParticles
    let sorted := List.insertionSort distLE (activeParticles.map
      (fun p => (p, dist p.lat p.lng centroid.lat centroid.lng)))
    let p50Index := (⌊(sorted.length : ℚ) * 0.50⌋).toNat
    let p90Index := (⌊(sorted.length : ℚ) * 0.90⌋).toNat
    let p95Index := (⌊(sorted.length : ℚ) * 0.95⌋).toNat
    { polygon50 := ProbabilityCalculator.createPolygon (sorted.take p50Index)
      polygon90 := ProbabilityCalculator.createPolygon (sorted.take p90Index)
      polygon95 := ProbabilityCalculator.createPolygon (sorted.take p95Index)
      confidence := ProbabilityCalculator.calculateConfidence dist sqrtF
        activeParticles
      centroid := some centroid }

/-- The five active particles of the hull-correctness scenario, in the
claim's order: (0,0), (0,1), (1,0), (1,1), (0.5,0.5). -/
def c6Particles : List Particle :=
  [⟨0, 0, 0, .active, 0, 0, 0, none, none, []⟩,
   ⟨1, 0, 1, .active, 0, 0, 0, none, none, []⟩,
   ⟨2, 1, 0, .active, 0, 0, 0, none, none, []⟩,
   ⟨3, 1, 1, .active, 0, 0, 0, none, none, []⟩,
   ⟨4, 0.5, 0.5, .active, 0, 0, 0, none, none, []⟩]

/-- A rational stand-in for the haversine `calculateDistance` that realizes
exactly the order the haversine induces at the five scenario points about
their centroid (0.5, 0.5): the centre particle at distance 0; the
latitude-1 corners strictly nearer than the latitude-0 corners (the
`cos(lat1)*cos(lat2)` factor of the haversine `a` shrinks the longitude
term, and `cos 1 deg < cos 0 deg`); corners of equal latitude equidistant by
the symmetry `dLng -> -dLng`. -/
def c6Dist : ℚ → ℚ → ℚ → ℚ → ℚ := fun plat _ _ _ =>
  if plat = 0.5 then 0 else if plat = 1 then 1 else 2

/-- C4: the survival estimator returns
`p = clamp(0,1, baseRate * tempFactor * timeFactor + pfdBonus + clothingBonus)`
for every input, and on the table scenario (age 40, no PFD, light clothing,
water 55 F, 4 elapsed hours) it returns `p = 0.4862` (which is `0.486` to three
decimals), urgency `urgent`, and `timeRemaining = 6 * p = 2.9172` (which is
`2.92` to two decimals). -/
theorem c4_survival_formula_and_table :
    (∀ (profile : VictimProfile) (cond : SurvivalConditions) (hours : ℚ),
      (SurvivalAnalyzer.analyze profile cond hours).probability =
        clamp01 (getBaseSurvivalRate profile *
          getTemperatureFactor cond.waterTemp * getTimeFactor hours +
          (if profile.hasPFD then 0.2 else 0) +
          getClothingFactor (profile.clothing.getD "light"))) ∧
    (let r := SurvivalAnalyzer.analyze ⟨some 40, false, some "light"⟩
        ⟨55, 60, 2⟩ 4
     r.probability = 0.4862 ∧
     r.probability = clamp01 (0.88 * 0.65 * 0.85) ∧
     0.486 - 0.001 < r.probability ∧ r.probability < 0.486 + 0.001 ∧
     r.urgency = "urgent" ∧
     r.timeRemaining = 6 * r.probability ∧
     r.timeRemaining = 2.9172 ∧
     2.92 - 0.01 < r.timeRemaining ∧ r.timeRemaining < 2.92 + 0.01) := by
  refine ⟨fun profile cond hours => rfl, ?_⟩
  norm_num [SurvivalAnalyzer.analyze, getBaseSurvivalRate, getTemperatureFactor,
    getTimeFactor, estimateTimeRemaining, clamp01, jsMin, jsMax, jsOrQ,
    (by decide : getClothingFactor "light" = 0)]

/-- C2: the driver applies shallow-water effects exactly when the local depth
is strictly below 20 m (at exactly 20 m the gate is off), and within
`ShallowWaterPhysics.calculate` the surf-zone processes run exactly when
`depth <= 5` and the very-shallow effects exactly when `depth <= 2`. -/
theorem c2_depth_thresholds (d : ℚ) :
    (TimeSteppingSimulator.shallowWaterGate d = true ↔ d < 20) ∧
    TimeSteppingSimulator.shallowWaterGate 20 = false ∧
    (ShallowWaterPhysics.calculateBranches d).surfZone =
      (TimeSteppingSimulator.shallowWaterGate d && decide (d ≤ 5)) ∧
    (ShallowWaterPhysics.calculateBranches d).veryShallow =
      (TimeSteppingSimulator.shallowWaterGate d && decide (d ≤ 2)) := by
  refine ⟨by simp [TimeSteppingSimulator.shallowWaterGate],
    by norm_num [TimeSteppingSimulator.shallowWaterGate], ?_, ?_⟩ <;>
  · simp only [ShallowWaterPhysics.calculateBranches,
      TimeSteppingSimulator.shallowWaterGate]
    split_ifs with h
    · simp [show ¬ (d < 20) by linarith]
    · first
      | · by_cases h5 : d ≤ 5
          · simp [h5, show d < 20 by linarith]
          · simp [h5]
      | · by_cases h2 : d ≤ 2
          · simp [h2, show d < 20 by linarith]
          · simp [h2]

/-- C7 counterexample: with time step 10 h, the driver's diffusion distance
is `sqrt(0.001 * 10) = 0.1` km whatever the draws; the claimed magnitude
`sqrt(D * dt) * u` at `u = 1/2` would have squared length `0.0025` km², but
the driver's displacement has squared length `0.01` km². -/
theorem c7_counterexample :
    kmLengthSq (TimeSteppingSimulator.calculateDiffusion sqrtStub 1 0 10) =
      0.01 ∧
    sqrtStub (0.001 * 10) ^ 2 = 0.001 * 10 ∧
    0 ≤ sqrtStub (0.001 * 10) ∧
    kmLengthSq (TimeSteppingSimulator.calculateDiffusion sqrtStub 1 0 10) ≠
      (sqrtStub (0.001 * 10) * (1 / 2)) ^ 2 := by
  norm_num [kmLengthSq, TimeSteppingSimulator.calculateDiffusion, sqrtStub]

/-- C7 (amended): the diffusion displacement the driver adds has step length
exactly `sqrt(0.001 * dt)` km for every draw (no uniform magnitude factor),
while the standalone `DiffusionCalculator.calculate` displacement has step
length `sqrt(0.001 * dt) * u` for its magnitude draw `u`; stated via squared
lengths, for any `sqrtF` that is a square root at the queried point and any
unit direction vector. -/
theorem c7_driver_diffusion_length (sqrtF : ℚ → ℚ) (cosA sinA deltaHours : ℚ)
    (hsq : sqrtF (0.001 * deltaHours) ^ 2 = 0.001 * deltaHours)
    (htrig : cosA ^ 2 + sinA ^ 2 = 1) :
    kmLengthSq (TimeSteppingSimulator.calculateDiffusion sqrtF cosA sinA
      deltaHours) = 0.001 * deltaHours ∧
    ∀ randMag : ℚ,
      kmLengthSq (DiffusionCalculator.displacement sqrtF cosA sinA randMag
        deltaHours) = 0.001 * deltaHours * randMag ^ 2 := by
  have h1 : (111.32 : ℚ) ≠ 0 := by norm_num
  constructor
  · simp only [kmLengthSq, TimeSteppingSimulator.calculateDiffusion]
    rw [div_mul_cancel₀ _ h1, div_mul_cancel₀ _ h1]
    have e : (sqrtF (0.001 * deltaHours) * cosA) ^ 2 +
        (sqrtF (0.001 * deltaHours) * sinA) ^ 2 =
        sqrtF (0.001 * deltaHours) ^ 2 * (cosA ^ 2 + sinA ^ 2) := by ring
    rw [e, htrig, mul_one, hsq]
  · intro randMag
    simp only [kmLengthSq, DiffusionCalculator.displacement]
    rw [div_mul_cancel₀ _ h1, div_mul_cancel₀ _ h1]
    have e : (sqrtF (0.001 * deltaHours) * randMag * cosA) ^ 2 +
        (sqrtF (0.001 * deltaHours) * randMag * sinA) ^ 2 =
        sqrtF (0.001 * deltaHours) ^ 2 * (cosA ^ 2 + sinA ^ 2) *
          randMag ^ 2 := by ring
    rw [e, htrig, mul_one, hsq]

/-- Witness for the amended diffusion claim at a concrete input. -/
theorem c7_witness :
    kmLengthSq (TimeSteppingSimulator.calculateDiffusion sqrtStub 1 0 10) =
      0.001 * 10 ∧
    kmLengthSq (DiffusionCalculator.displacement sqrtStub 1 0 (1 / 2) 10) =
      0.001 * 10 * (1 / 2) ^ 2 :=
  ⟨(c7_driver_diffusion_length sqrtStub 1 0 10 (by norm_num [sqrtStub])
      (by norm_num)).1,
   (c7_driver_diffusion_length sqrtStub 1 0 10 (by norm_num [sqrtStub])
      (by norm_num)).2 (1 / 2)⟩

/-- When every depth the oracle can return is at least 20 m, one driver step
leaves an active particle active and the statistics untouched. -/
theorem stepParticle_deep (o : StepOracle) (t dt : ℚ) (p : Particle)
    (st : Stats) (hp : p.status = .active)
    (hd : ∀ lat lng : ℚ, 20 ≤ o.depthAt lat lng) :
    (TimeSteppingSimulator.stepParticle o t dt p st).1.status = .active ∧
    (TimeSteppingSimulator.stepParticle o t dt p st).2 = st := by
  have hd' : ∀ a b : ℚ, ¬ (o.depthAt a b ≤ 0) := by
    intro a b
    have := hd a b
    intro hab
    linarith
  have hgate : TimeSteppingSimulator.shallowWaterGate (o.depthAt p.lat p.lng)
      = false := by
    simp only [TimeSteppingSimulator.shallowWaterGate,
      decide_eq_false_iff_not, not_lt]
    have := hd p.lat p.lng
    linarith
  unfold TimeSteppingSimulator.stepParticle
  rw [if_neg (by simp [hp])]
  simp only [hgate, Bool.false_eq_true, if_false]
  unfold TimeSteppingSimulator.finishMove
  rw [if_neg (hd' _ _)]
  simp [hp]

/-- When every step oracle of a run only returns depths of at least 20 m, the
whole run keeps an active particle active and never changes the statistics. -/
theorem runParticle_deep (os : List StepOracle) (dt t0 : ℚ) (p : Particle)
    (st : Stats) (hp : p.status = .active)
    (hd : ∀ o ∈ os, ∀ lat lng : ℚ, 20 ≤ o.depthAt lat lng) :
    (TimeSteppingSimulator.runParticle os dt t0 p st).1.status = .active ∧
    (TimeSteppingSimulator.runParticle os dt t0 p st).2 = st := by
  induction os generalizing t0 p st with
  | nil => exact ⟨hp, rfl⟩
  | cons o rest ih =>
    have hstep := stepParticle_deep o t0 dt p st hp
      (hd o (List.mem_cons_self o rest))
    simp only [TimeSteppingSimulator.runParticle]
    rw [hstep.2]
    exact ih (t0 + dt) _ st hstep.1
      (fun o' ho' => hd o' (List.mem_cons_of_mem o ho'))

/-- C9: the built-in depth source returns `20 + u * 30`, a value in
`[20, 50)`, for every draw `u` in `[0, 1)`; consequently a run whose depth
queries all come from that source never takes the shallow-water branch nor
the land branch: every particle stays active for the whole run and the
statistics (totalBeached, beaching records, shallowWaterEncounters,
surfZoneEncounters, landExclusions, reflections) never change. -/
theorem c9_builtin_depth_keeps_run_inert (r : ℚ) (hr0 : 0 ≤ r) (hr1 : r < 1)
    (os : List StepOracle) (dt t0 : ℚ) (p : Particle) (st : Stats)
    (hp : p.status = .active)
    (hos : ∀ o ∈ os, ∀ lat lng : ℚ, ∃ u : ℚ, 0 ≤ u ∧ u < 1 ∧
      o.depthAt lat lng = TimeSteppingSimulator.getDepthAt u) :
    (20 ≤ TimeSteppingSimulator.getDepthAt r ∧
      TimeSteppingSimulator.getDepthAt r < 50) ∧
    (TimeSteppingSimulator.runParticle os dt t0 p st).1.status = .active ∧
    (TimeSteppingSimulator.runParticle os dt t0 p st).2 = st := by
  have hrange : ∀ u : ℚ, 0 ≤ u → u < 1 →
      20 ≤ TimeSteppingSimulator.getDepthAt u ∧
      TimeSteppingSimulator.getDepthAt u < 50 := by
    intro u h0 h1
    constructor <;> · simp only [TimeSteppingSimulator.getDepthAt]; nlinarith
  refine ⟨hrange r hr0 hr1, ?_⟩
  refine runParticle_deep os dt t0 p st hp ?_
  intro o ho lat lng
  obtain ⟨u, hu0, hu1, he⟩ := hos o ho lat lng
  rw [he]
  exact (hrange u hu0 hu1).1

/-- C1 counterexample: the attempted move of the particle lands at depth
-1 ≤ 0 (land), the shore is sandy with stickiness 0.6, and the branch draw is
u = 0.1 < 0.6 — yet the particle does not beach (and does not move): the
driver hands `checkShoreInteraction` the depth at the particle's current
position (30 m here), and the interaction returns immediately when that depth
exceeds 0.5 m, without consulting the draw. -/
theorem c1_counterexample :
    (TimeSteppingSimulator.stepParticle c1Oracle 0 600 p0
        Stats.init).1.status = .active ∧
    (TimeSteppingSimulator.stepParticle c1Oracle 0 600 p0 Stats.init).1.lat =
      29.3 ∧
    (TimeSteppingSimulator.stepParticle c1Oracle 0 600 p0 Stats.init).1.lng =
      -94.8 ∧
    (TimeSteppingSimulator.stepParticle c1Oracle 0 600 p0
        Stats.init).2.landExclusions = 1 ∧
    (TimeSteppingSimulator.stepParticle c1Oracle 0 600 p0
        Stats.init).2.totalBeached = 0 ∧
    (TimeSteppingSimulator.attemptedPos c1Oracle 600 p0).1 = 29.4 ∧
    (TimeSteppingSimulator.attemptedPos c1Oracle 600 p0).2 = -94.8 ∧
    c1Oracle.depthAt 29.4 (-94.8) ≤ 0 ∧
    c1Oracle.randShore <
      (ShallowWaterPhysics.shoreTypes c1Oracle.shoreType).stickiness := by
  norm_num [TimeSteppingSimulator.stepParticle, TimeSteppingSimulator.finishMove,
    TimeSteppingSimulator.attemptedPos, TimeSteppingSimulator.calculateDiffusion,
    TimeSteppingSimulator.shallowWaterGate, TimeSteppingSimulator.beachParticle,
    ShallowWaterPhysics.checkShoreInteraction, c1Oracle, p0, Stats.init]
  simp [ShallowWaterPhysics.shoreTypes]
  norm_num

/-- When the attempted position (here passed componentwise as the exact sums
`finishMove` forms) lands at depth ≤ 0 and the shore interaction returns
`beached`, the driver freezes the particle at its current position. -/
theorem finishMove_beach (o : StepOracle) (t dt : ℚ) (p1 : Particle)
    (st : Stats) (tl tg : ℚ)
    (hland : o.depthAt
      (p1.lat + (tl + (TimeSteppingSimulator.calculateDiffusion o.sqrtF o.cosA
        o.sinA (dt / 3600)).1))
      (p1.lng + (tg + (TimeSteppingSimulator.calculateDiffusion o.sqrtF o.cosA
        o.sinA (dt / 3600)).2)) ≤ 0)
    (hbeach : ShallowWaterPhysics.checkShoreInteraction o.cosdeg o.sindeg
      p1.lat p1.lng o.shoreType p1.depth o.shoreNormal o.randShore
      o.randShoreAngle o.randShoreDist = .beached) :
    (TimeSteppingSimulator.finishMove o t dt p1 st tl tg).1.status =
      .beached ∧
    (TimeSteppingSimulator.finishMove o t dt p1 st tl tg).1.lat = p1.lat ∧
    (TimeSteppingSimulator.finishMove o t dt p1 st tl tg).1.lng = p1.lng := by
  simp only [TimeSteppingSimulator.finishMove]
  rw [if_pos hland, hbeach]
  simp [TimeSteppingSimulator.beachParticle]

/-- The driver-level half of the amended shore-interaction claim: an active
particle whose attempted move lands at depth ≤ 0 and whose shore interaction
comes back `beached` is frozen at its current (pre-move) position — not at
the attempted position. -/
theorem stepParticle_land_beach (o : StepOracle) (t dt : ℚ) (p : Particle)
    (st : Stats) (hp : p.status = .active)
    (hnb : ¬ (o.shallowBeachProb > 0 ∧ o.randBeach < o.shallowBeachProb))
    (hland : o.depthAt (TimeSteppingSimulator.attemptedPos o dt p).1
      (TimeSteppingSimulator.attemptedPos o dt p).2 ≤ 0)
    (hbeach : ShallowWaterPhysics.checkShoreInteraction o.cosdeg o.sindeg
      p.lat p.lng o.shoreType (o.depthAt p.lat p.lng) o.shoreNormal
      o.randShore o.randShoreAngle o.randShoreDist = .beached) :
    (TimeSteppingSimulator.stepParticle o t dt p st).1.status = .beached ∧
    (TimeSteppingSimulator.stepParticle o t dt p st).1.lat = p.lat ∧
    (TimeSteppingSimulator.stepParticle o t dt p st).1.lng = p.lng := by
  have hd05 : o.depthAt p.lat p.lng ≤ 0.5 := by
    by_contra hgt
    have hstay : ShallowWaterPhysics.checkShoreInteraction o.cosdeg o.sindeg
        p.lat p.lng o.shoreType (o.depthAt p.lat p.lng) o.shoreNormal
        o.randShore o.randShoreAngle o.randShoreDist = .stay := by
      simp only [ShallowWaterPhysics.checkShoreInteraction]
      rw [if_pos (not_le.mp hgt)]
    simp [hstay] at hbeach
  have hgate : TimeSteppingSimulator.shallowWaterGate (o.depthAt p.lat p.lng)
      = true := by
    simp only [TimeSteppingSimulator.shallowWaterGate, decide_eq_true_eq]
    linarith
  have hbeach' : ShallowWaterPhysics.checkShoreInteraction o.cosdeg o.sindeg
      (Particle.lat { p with depth := o.depthAt p.lat p.lng })
      (Particle.lng { p with depth := o.depthAt p.lat p.lng })
      o.shoreType
      (Particle.depth { p with depth := o.depthAt p.lat p.lng })
      o.shoreNormal o.randShore o.randShoreAngle o.randShoreDist =
      .beached := by
    simpa using hbeach
  have hland' : o.depthAt
      (Particle.lat { p with depth := o.depthAt p.lat p.lng } +
        ((o.driftLat + o.shallowLat) +
          (TimeSteppingSimulator.calculateDiffusion o.sqrtF o.cosA o.sinA
            (dt / 3600)).1))
      (Particle.lng { p with depth := o.depthAt p.lat p.lng } +
        ((o.driftLng + o.shallowLng) +
          (TimeSteppingSimulator.calculateDiffusion o.sqrtF o.cosA o.sinA
            (dt / 3600)).2)) ≤ 0 := by
    simpa [TimeSteppingSimulator.attemptedPos, hgate, add_assoc] using hland
  have hfin := finishMove_beach o t dt
    { p with depth := o.depthAt p.lat p.lng }
    (if o.depthAt p.lat p.lng ≤ 5 then
      { st with
          shallowWaterEncounters := st.shallowWaterEncounters + 1
          surfZoneEncounters := st.surfZoneEncounters + 1 }
    else { st with
          shallowWaterEncounters := st.shallowWaterEncounters + 1 })
    (o.driftLat + o.shallowLat) (o.driftLng + o.shallowLng) hland' hbeach'
  simp only [TimeSteppingSimulator.stepParticle]
  rw [if_neg (by simp [hp]), if_pos hgate, if_neg hnb]
  simpa using hfin

/-- C1 (amended): when an attempted move lands at depth ≤ 0 the driver runs
the shore-interaction decision, but the decision also receives the depth at
the particle's current (pre-move) position and returns no interaction — no
draw consulted — whenever that depth exceeds 0.5 m. When the current depth is
at most 0.5 m, with draw u: `u < s` beaches the particle at its current
(pre-move) position (not the attempted one); otherwise `u < s + r` reflects
it to the current position displaced 0.01 + 0.02·U[0,1] km in direction
`(shoreNormal + 180 + U[-30,30])` degrees; otherwise it stays in place. -/
theorem c1_shore_interaction_amended (cosdeg sindeg : ℚ → ℚ)
    (plat plng : ℚ) (shoreType : String)
    (depth shoreNormal rand randAngle randDist : ℚ) :
    (depth > 0.5 →
      ShallowWaterPhysics.checkShoreInteraction cosdeg sindeg plat plng
        shoreType depth shoreNormal rand randAngle randDist = .stay) ∧
    (depth ≤ 0.5 →
      rand < (ShallowWaterPhysics.shoreTypes shoreType).stickiness →
      ShallowWaterPhysics.checkShoreInteraction cosdeg sindeg plat plng
        shoreType depth shoreNormal rand randAngle randDist = .beached) ∧
    (depth ≤ 0.5 →
      ¬ rand < (ShallowWaterPhysics.shoreTypes shoreType).stickiness →
      rand < (ShallowWaterPhysics.shoreTypes shoreType).stickiness +
        (ShallowWaterPhysics.shoreTypes shoreType).reflection →
      ShallowWaterPhysics.checkShoreInteraction cosdeg sindeg plat plng
        shoreType depth shoreNormal rand randAngle randDist =
      .reflected
        (plat + (0.01 + randDist * 0.02) *
          cosdeg (shoreNormal + 180 + (randAngle - 0.5) * 60) / 111.32)
        (plng + (0.01 + randDist * 0.02) *
          sindeg (shoreNormal + 180 + (randAngle - 0.5) * 60) / 111.32)) ∧
    (depth ≤ 0.5 →
      ¬ rand < (ShallowWaterPhysics.shoreTypes shoreType).stickiness →
      ¬ rand < (ShallowWaterPhysics.shoreTypes shoreType).stickiness +
        (ShallowWaterPhysics.shoreTypes shoreType).reflection →
      ShallowWaterPhysics.checkShoreInteraction cosdeg sindeg plat plng
        shoreType depth shoreNormal rand randAngle randDist = .stay) ∧
    (∀ (o : StepOracle) (t dt : ℚ) (p : Particle) (st : Stats),
      p.status = .active →
      ¬ (o.shallowBeachProb > 0 ∧ o.randBeach < o.shallowBeachProb) →
      o.depthAt (TimeSteppingSimulator.attemptedPos o dt p).1
        (TimeSteppingSimulator.attemptedPos o dt p).2 ≤ 0 →
      ShallowWaterPhysics.checkShoreInteraction o.cosdeg o.sindeg p.lat p.lng
        o.shoreType (o.depthAt p.lat p.lng) o.shoreNormal o.randShore
        o.randShoreAngle o.randShoreDist = .beached →
      (TimeSteppingSimulator.stepParticle o t dt p st).1.status = .beached ∧
      (TimeSteppingSimulator.stepParticle o t dt p st).1.lat = p.lat ∧
      (TimeSteppingSimulator.stepParticle o t dt p st).1.lng = p.lng) := by
  refine ⟨?_, ?_, ?_, ?_,
    fun o t dt p st hp hnb hland hbeach =>
      stepParticle_land_beach o t dt p st hp hnb hland hbeach⟩
  · intro h
    simp only [ShallowWaterPhysics.checkShoreInteraction]
    rw [if_pos h]
  · intro h hs
    simp only [ShallowWaterPhysics.checkShoreInteraction]
    rw [if_neg (not_lt.mpr h), if_pos hs]
  · intro h hs hsr
    simp only [ShallowWaterPhysics.checkShoreInteraction]
    rw [if_neg (not_lt.mpr h), if_neg hs, if_pos hsr]
  · intro h hs hsr
    simp only [ShallowWaterPhysics.checkShoreInteraction]
    rw [if_neg (not_lt.mpr h), if_neg hs, if_neg hsr]

/-- Witness for the amended shore-interaction claim: at current depth 0.3 m,
sandy shore and draw 0.5 < 0.6, the interaction beaches, and the driver
freezes the particle at its current position (the origin), not at the
attempted position (0.1, 0). -/
theorem c1_witness :
    ShallowWaterPhysics.checkShoreInteraction (fun _ => 1) (fun _ => 0) 0 0
      "sandy" 0.3 90 0.5 0.55 0.25 = .beached ∧
    (TimeSteppingSimulator.stepParticle c1WitnessOracle 0 600 pOrigin
      Stats.init).1.status = .beached ∧
    (TimeSteppingSimulator.stepParticle c1WitnessOracle 0 600 pOrigin
      Stats.init).1.lat = pOrigin.lat ∧
    (TimeSteppingSimulator.stepParticle c1WitnessOracle 0 600 pOrigin
      Stats.init).1.lng = pOrigin.lng := by
  refine ⟨(c1_shore_interaction_amended (fun _ => 1) (fun _ => 0) 0 0 "sandy"
      0.3 90 0.5 0.55 0.25).2.1 (by norm_num)
      (by simp [ShallowWaterPhysics.shoreTypes] <;> norm_num), ?_⟩
  exact (c1_shore_interaction_amended (fun _ => 1) (fun _ => 0) 0 0 "sandy"
      0.3 90 0.5 0.55 0.25).2.2.2.2 c1WitnessOracle 0 600 pOrigin Stats.init
    rfl
    (by norm_num [c1WitnessOracle])
    (by norm_num [TimeSteppingSimulator.attemptedPos,
      TimeSteppingSimulator.calculateDiffusion,
      TimeSteppingSimulator.shallowWaterGate, c1WitnessOracle, pOrigin])
    (by norm_num [ShallowWaterPhysics.checkShoreInteraction, c1WitnessOracle,
        pOrigin]
        <;> simp [ShallowWaterPhysics.shoreTypes]
        <;> norm_num)

/-- C10: `startSimulation` throws `Invalid LKP coordinates` exactly when the
LKP object is absent or its `lat` or `lng` equals 0 (the falsy check), so an
LKP on the equator or prime meridian is rejected; conversely every
configuration with both coordinates non-zero is accepted and registered, with
no range check on either coordinate. -/
theorem c10_lkp_falsy_validation (config : SimConfig) (id : String)
    (sims : List (String × Simulation)) :
    ((config.lkp = none ∨ ∃ l, config.lkp = some l ∧ (l.lat = 0 ∨ l.lng = 0)) →
      SimulationController.startSimulation config id sims =
        .error "Invalid LKP coordinates") ∧
    (∀ l, config.lkp = some l → l.lat ≠ 0 → l.lng ≠ 0 →
      SimulationController.startSimulation config id sims =
        .ok (sims ++ [(id,
          { id := id
            status := "running"
            progress := 0
            config := config
            objectType := config.objectType.getD "person-in-water"
            durationHours := jsOrQ config.durationHours 72 })],
          ⟨id, "started", jsOrQ config.durationHours 72⟩)) := by
  constructor
  · rintro (hnone | ⟨l, hl, hzero⟩)
    · simp [SimulationController.startSimulation, hnone]
    · simp only [SimulationController.startSimulation, hl]
      rw [if_pos hzero]
  · intro l hl hlat hlng
    simp only [SimulationController.startSimulation, hl]
    have hz : ¬ (l.lat = 0 ∨ l.lng = 0) := by
      rintro (h | h)
      exacts [hlat h, hlng h]
    rw [if_neg hz]

/-- Witness for the LKP validation claim: latitude 0 (the equator) is
rejected even though it is a valid coordinate, while latitude 9999 is
accepted without any range check. -/
theorem c10_witness :
    SimulationController.startSimulation ⟨some ⟨0, 10⟩, none, none, none⟩
      "sim_a" [] = .error "Invalid LKP coordinates" ∧
    SimulationController.startSimulation ⟨some ⟨9999, 1⟩, none, none, none⟩
      "sim_b" [] =
      .ok ([] ++ [("sim_b",
        { id := "sim_b"
          status := "running"
          progress := 0
          config := ⟨some ⟨9999, 1⟩, none, none, none⟩
          objectType := (none : Option String).getD "person-in-water"
          durationHours := jsOrQ none 72 })],
        ⟨"sim_b", "started", jsOrQ none 72⟩) :=
  ⟨(c10_lkp_falsy_validation ⟨some ⟨0, 10⟩, none, none, none⟩ "sim_a" []).1
      (Or.inr ⟨⟨0, 10⟩, rfl, Or.inl rfl⟩),
   (c10_lkp_falsy_validation ⟨some ⟨9999, 1⟩, none, none, none⟩ "sim_b" []).2
      ⟨9999, 1⟩ rfl (by norm_num) (by norm_num)⟩

/-- C5 counterexample: a configuration with an unknown object type
(`submarine`) and a negative duration (-5 h) is not refused: the simulation
is created, registered and reported `started`, and the unknown type is only
ever defaulted (to person-in-water) inside the leeway lookup. -/
theorem c5_counterexample :
    SimulationController.startSimulation c5Config "sim_1" [] =
      .ok ([] ++ [("sim_1",
        { id := "sim_1"
          status := "running"
          progress := 0
          config := c5Config
          objectType := "submarine"
          durationHours := -5 })],
        ⟨"sim_1", "started", -5⟩) ∧
    LeewayCalculator.leewayFactors "submarine" =
      LeewayCalculator.leewayFactors "person-in-water" := by
  constructor
  · norm_num [SimulationController.startSimulation, c5Config, jsOrQ]
  · simp [LeewayCalculator.leewayFactors]

/-- C5 (amended): only the LKP is validated. For every configuration whose
LKP has non-zero coordinates, `startSimulation` creates and registers the
simulation whatever the object type (unknown ones are silently defaulted to
person-in-water) and whatever the duration; a duration of 0 is silently
replaced by the default 72 (it is falsy) and any other — negative included —
is used as given. -/
theorem c5_no_type_or_duration_validation (lkp : Lkp) (hlat : lkp.lat ≠ 0)
    (hlng : lkp.lng ≠ 0) (objectType : Option String)
    (particleCount durationHours : Option ℚ) (id : String)
    (sims : List (String × Simulation)) :
    SimulationController.startSimulation
      ⟨some lkp, objectType, particleCount, durationHours⟩ id sims =
      .ok (sims ++ [(id,
        { id := id
          status := "running"
          progress := 0
          config := ⟨some lkp, objectType, particleCount, durationHours⟩
          objectType := objectType.getD "person-in-water"
          durationHours := jsOrQ durationHours 72 })],
        ⟨id, "started", jsOrQ durationHours 72⟩) ∧
    jsOrQ (some 0) 72 = 72 ∧
    (∀ d : ℚ, d ≠ 0 → jsOrQ (some d) 72 = d) := by
  refine ⟨?_, by norm_num [jsOrQ], fun d hd => by simp [jsOrQ, hd]⟩
  simp only [SimulationController.startSimulation]
  have hz : ¬ (lkp.lat = 0 ∨ lkp.lng = 0) := by
    rintro (h | h)
    exacts [hlat h, hlng h]
  rw [if_neg hz]

/-- Witness for the amended validation claim at the counterexample's
configuration. -/
theorem c5_witness :
    SimulationController.startSimulation
      ⟨some ⟨29.3, -94.8⟩, some "submarine", none, some (-5)⟩ "sim_1" [] =
      .ok ([] ++ [("sim_1",
        { id := "sim_1"
          status := "running"
          progress := 0
          config := ⟨some ⟨29.3, -94.8⟩, some "submarine", none, some (-5)⟩
          objectType := (some "submarine").getD "person-in-water"
          durationHours := jsOrQ (some (-5)) 72 })],
        ⟨"sim_1", "started", jsOrQ (some (-5)) 72⟩) :=
  (c5_no_type_or_duration_validation ⟨29.3, -94.8⟩ (by norm_num) (by norm_num)
    (some "submarine") none (some (-5)) "sim_1" []).1

/-- C3 (code bug, evaluated): `runSimulation` never reads `sim.status`, so a
stop request that lands at the yield boundary after the first of two steps
(where `stopSimulation` does set the status to `stopped`) changes nothing:
both steps still execute, progress still reaches 100, and the final status is
unconditionally overwritten with `completed`. -/
theorem c3_stop_is_ignored :
    (SimulationController.runSimulation 2 (some 1)
      ⟨"running", 0, 0⟩).status = "completed" ∧
    (SimulationController.runSimulation 2 (some 1)
      ⟨"running", 0, 0⟩).stepsExecuted = 2 ∧
    (SimulationController.runSimulation 2 (some 1)
      ⟨"running", 0, 0⟩).progress = 100 ∧
    SimulationController.stopSimulation ⟨"running", 50, 1⟩ =
      ⟨"stopped", 50, 1⟩ := by
  refine ⟨rfl, ?_, rfl, by simp [SimulationController.stopSimulation]⟩
  simp [SimulationController.runSimulation, SimulationController.stopSimulation,
    List.range_succ]

/-- Witness for the inertness claim: one step over the built-in depth source
at draw 1/2 leaves the particle active and the statistics untouched. -/
theorem c9_witness :
    (20 ≤ TimeSteppingSimulator.getDepthAt (1 / 2) ∧
      TimeSteppingSimulator.getDepthAt (1 / 2) < 50) ∧
    (TimeSteppingSimulator.runParticle [c9Oracle] 600 0 p0
      Stats.init).1.status = .active ∧
    (TimeSteppingSimulator.runParticle [c9Oracle] 600 0 p0 Stats.init).2 =
      Stats.init :=
  c9_builtin_depth_keeps_run_inert (1 / 2) (by norm_num) (by norm_num)
    [c9Oracle] 600 0 p0 Stats.init rfl
    (fun o ho lat lng => ⟨1 / 2, by norm_num, by norm_num, by
      have h := List.mem_singleton.mp ho
      rw [h]
      rfl⟩)

/-- What one `bump` does to the grid: the touched cell attains the returned
count, every result cell is an untouched original or attains it, every
original cell survives unless it is the one that was bumped (in which case
its count plus one is the returned count), and the result is nonempty. -/
theorem bump_spec (la lg : ℚ) (pid : ℕ) (g : List GridCell) :
    1 ≤ (DensityAnalyzer.bump la lg pid g).2 ∧
    (∃ c ∈ (DensityAnalyzer.bump la lg pid g).1,
      c.count = (DensityAnalyzer.bump la lg pid g).2) ∧
    (∀ c' ∈ (DensityAnalyzer.bump la lg pid g).1,
      c' ∈ g ∨ c'.count = (DensityAnalyzer.bump la lg pid g).2) ∧
    (∀ c ∈ g, c ∈ (DensityAnalyzer.bump la lg pid g).1 ∨
      c.count + 1 = (DensityAnalyzer.bump la lg pid g).2) ∧
    (DensityAnalyzer.bump la lg pid g).1 ≠ [] := by
  induction g with
  | nil => simp [DensityAnalyzer.bump]
  | cons c rest ih =>
    by_cases h : c.lat = la ∧ c.lng = lg
    · simp only [DensityAnalyzer.bump, if_pos h]
      refine ⟨Nat.le_add_left 1 c.count,
        ⟨_, List.mem_cons_self _ _, rfl⟩, ?_, ?_, by simp⟩
      · intro c' hc'
        rcases List.mem_cons.mp hc' with h1 | h1
        · right
          rw [h1]
        · exact Or.inl (List.mem_cons_of_mem _ h1)
      · intro cc hcc
        rcases List.mem_cons.mp hcc with h1 | h1
        · right
          rw [h1]
        · exact Or.inl (List.mem_cons_of_mem _ h1)
    · simp only [DensityAnalyzer.bump, if_neg h]
      obtain ⟨ih1, ⟨cw, hcw, hcweq⟩, ih3, ih4, ih5⟩ := ih
      refine ⟨ih1, ⟨cw, List.mem_cons_of_mem _ hcw, hcweq⟩, ?_, ?_, by simp⟩
      · intro c' hc'
        rcases List.mem_cons.mp hc' with h1 | h1
        · exact Or.inl (h1 ▸ List.mem_cons_self _ _)
        · rcases ih3 c' h1 with h2 | h2
          · exact Or.inl (List.mem_cons_of_mem _ h2)
          · exact Or.inr h2
      · intro cc hcc
        rcases List.mem_cons.mp hcc with h1 | h1
        · exact Or.inl (h1 ▸ List.mem_cons_self _ _)
        · rcases ih4 cc h1 with h2 | h2
          · exact Or.inl (List.mem_cons_of_mem _ h2)
          · exact Or.inr h2

/-- Folding the new cell count into `maxDensity` (line 42 of part_000)
preserves the grid invariant: every cell count is in `[1, maxDensity]`,
`maxDensity` is attained, and the grid is nonempty. -/
theorem step_max_inv (g : List GridCell) (m : ℕ) (rr : List GridCell × ℕ)
    (h1 : ∀ c ∈ g, 1 ≤ c.count ∧ c.count ≤ m)
    (h3 : g ≠ [] → ∃ c ∈ g, c.count = m)
    (h2 : g = [] → m = 0)
    (b1 : 1 ≤ rr.2)
    (battain : ∃ c ∈ rr.1, c.count = rr.2)
    (b3 : ∀ c' ∈ rr.1, c' ∈ g ∨ c'.count = rr.2)
    (b4 : ∀ c ∈ g, c ∈ rr.1 ∨ c.count + 1 = rr.2)
    (b5 : rr.1 ≠ []) :
    (∀ c ∈ rr.1, 1 ≤ c.count ∧ c.count ≤ (if rr.2 > m then rr.2 else m)) ∧
    (∃ c ∈ rr.1, c.count = (if rr.2 > m then rr.2 else m)) ∧
    rr.1 ≠ [] := by
  by_cases hm : rr.2 > m
  · rw [if_pos hm]
    refine ⟨?_, battain, b5⟩
    intro c hc
    rcases b3 c hc with h | h
    · exact ⟨(h1 c h).1, Nat.le_trans (h1 c h).2 (Nat.le_of_lt hm)⟩
    · exact ⟨h ▸ b1, Nat.le_of_eq h⟩
  · rw [if_neg hm]
    push_neg at hm
    have hgne : g ≠ [] := by
      intro hg
      have hm0 := h2 hg
      omega
    obtain ⟨cs, hcs, hcseq⟩ := h3 hgne
    refine ⟨?_, ?_, b5⟩
    · intro c hc
      rcases b3 c hc with h | h
      · exact h1 c h
      · exact ⟨h ▸ b1, h ▸ hm⟩
    · rcases b4 cs hcs with h | h
      · exact ⟨cs, h, hcseq⟩
      · omega

/-- One `binStep` preserves the grid invariant and leaves the grid
nonempty. -/
theorem binStep_inv (gs : ℚ) (acc : List GridCell × ℕ) (p : Particle)
    (h1 : ∀ c ∈ acc.1, 1 ≤ c.count ∧ c.count ≤ acc.2)
    (h3 : acc.1 ≠ [] → ∃ c ∈ acc.1, c.count = acc.2)
    (h2 : acc.1 = [] → acc.2 = 0) :
    (∀ c ∈ (DensityAnalyzer.binStep gs acc p).1,
      1 ≤ c.count ∧ c.count ≤ (DensityAnalyzer.binStep gs acc p).2) ∧
    (∃ c ∈ (DensityAnalyzer.binStep gs acc p).1,
      c.count = (DensityAnalyzer.binStep gs acc p).2) ∧
    (DensityAnalyzer.binStep gs acc p).1 ≠ [] := by
  have bs := bump_spec ((⌊p.lat / gs⌋ : ℚ) * gs) ((⌊p.lng / gs⌋ : ℚ) * gs)
    p.id acc.1
  have key := step_max_inv acc.1 acc.2 _ h1 h3 h2 bs.1 bs.2.1 bs.2.2.1
    bs.2.2.2.1 bs.2.2.2.2
  simpa [DensityAnalyzer.binStep] using key

/-- The whole binning fold preserves the grid invariant, and its grid is
nonempty as soon as a particle was processed (or the start grid was already
nonempty). -/
theorem binFold_inv (gs : ℚ) (ps : List Particle) (acc : List GridCell × ℕ)
    (h1 : ∀ c ∈ acc.1, 1 ≤ c.count ∧ c.count ≤ acc.2)
    (h3 : acc.1 ≠ [] → ∃ c ∈ acc.1, c.count = acc.2)
    (h2 : acc.1 = [] → acc.2 = 0) :
    (∀ c ∈ (ps.foldl (DensityAnalyzer.binStep gs) acc).1,
      1 ≤ c.count ∧
      c.count ≤ (ps.foldl (DensityAnalyzer.binStep gs) acc).2) ∧
    ((ps.foldl (DensityAnalyzer.binStep gs) acc).1 ≠ [] →
      ∃ c ∈ (ps.foldl (DensityAnalyzer.binStep gs) acc).1,
        c.count = (ps.foldl (DensityAnalyzer.binStep gs) acc).2) ∧
    ((ps.foldl (DensityAnalyzer.binStep gs) acc).1 = [] →
      (ps.foldl (DensityAnalyzer.binStep gs) acc).2 = 0) ∧
    (ps ≠ [] ∨ acc.1 ≠ [] →
      (ps.foldl (DensityAnalyzer.binStep gs) acc).1 ≠ []) := by
  induction ps generalizing acc with
  | nil =>
    refine ⟨h1, h3, h2, ?_⟩
    rintro (hne | hne)
    · exact absurd rfl hne
    · exact hne
  | cons p rest ih =>
    obtain ⟨s1, s2, s5⟩ := binStep_inv gs acc p h1 h3 h2
    have ihr := ih (DensityAnalyzer.binStep gs acc p) s1 (fun _ => s2)
      (fun hc => absurd hc s5)
    refine ⟨ihr.1, ihr.2.1, ihr.2.2.1, fun _ => ihr.2.2.2 (Or.inr s5)⟩

/-- C8: for every particle list with at least one active particle, every
heat-map cell has `weight = count / maxDensity` lying in `(0, 1]`, some cell
has weight exactly 1, and the heat map is sorted by count in descending
order. -/
theorem c8_heatmap_weights_and_order (gridSize : ℚ)
    (particles : List Particle) (h : ∃ p ∈ particles, p.status = .active) :
    (∀ c ∈ (DensityAnalyzer.analyze gridSize particles).heatMap,
      c.weight = (c.count : ℚ) /
        ((DensityAnalyzer.analyze gridSize particles).maxDensity : ℚ) ∧
      0 < c.weight ∧ c.weight ≤ 1) ∧
    (∃ c ∈ (DensityAnalyzer.analyze gridSize particles).heatMap,
      c.weight = 1) ∧
    List.Sorted heatGE (DensityAnalyzer.analyze gridSize particles).heatMap
    := by
  have hactne :
      particles.filter (fun p => decide (p.status = .active)) ≠ [] := by
    obtain ⟨p, hp, hps⟩ := h
    intro he
    have hmem : p ∈ particles.filter (fun p => decide (p.status = .active)) :=
      List.mem_filter.mpr ⟨hp, by simp [hps]⟩
    rw [he] at hmem
    exact absurd hmem (List.not_mem_nil p)
  obtain ⟨f1, f3, f2, fne⟩ := binFold_inv gridSize
    (particles.filter (fun p => decide (p.status = .active))) ([], 0)
    (by simp) (by simp) (by simp)
  have hgridne := fne (Or.inl hactne)
  obtain ⟨ca, hca, hcaeq⟩ := f3 hgridne
  have hmax1 : 1 ≤ ((particles.filter
      (fun p => decide (p.status = .active))).foldl
      (DensityAnalyzer.binStep gridSize) ([], 0)).2 := by
    have := (f1 ca hca).1
    omega
  have hmaxQ : (0 : ℚ) < (((particles.filter
      (fun p => decide (p.status = .active))).foldl
      (DensityAnalyzer.binStep gridSize) ([], 0)).2 : ℚ) := by
    exact_mod_cast Nat.pos_of_ne_zero (by omega)
  simp only [DensityAnalyzer.analyze]
  refine ⟨?_, ?_, List.sorted_insertionSort heatGE _⟩
  · intro c hc
    have hc' := (List.perm_insertionSort heatGE _).mem_iff.mp hc
    obtain ⟨gc, hgc, hgceq⟩ := List.mem_map.mp hc'
    obtain ⟨hgc1, hgc2⟩ := f1 gc hgc
    refine ⟨by rw [← hgceq], ?_, ?_⟩
    · rw [← hgceq]
      exact div_pos (by exact_mod_cast Nat.pos_of_ne_zero (by omega)) hmaxQ
    · rw [← hgceq]
      exact (div_le_one hmaxQ).mpr (by exact_mod_cast hgc2)
  · refine ⟨{ lat := ca.lat + gridSize / 2
              lng := ca.lng + gridSize / 2
              weight := (ca.count : ℚ) / (((particles.filter
                (fun p => decide (p.status = .active))).foldl
                (DensityAnalyzer.binStep gridSize) ([], 0)).2 : ℚ)
              count := ca.count }, ?_, ?_⟩
    · exact (List.perm_insertionSort heatGE _).mem_iff.mpr
        (List.mem_map.mpr ⟨ca, hca, rfl⟩)
    · rw [hcaeq]
      exact div_self (ne_of_gt hmaxQ)

/-- C6 counterexample: on the five scenario particles the 90% prefix is
`Math.floor(5 * 0.9) = 4` particles long, and since the centroid-coincident
particle (0.5, 0.5) is always nearest it is always in the prefix, which
therefore misses one corner: with the haversine ordering (realized by
`c6Dist`) the 90% polygon is the triangle [(0,0), (1,0), (1,1)], not the
square — its vertex (0,1) is missing. -/
theorem c6_counterexample :
    (ProbabilityCalculator.calculate c6Dist (fun _ => 0)
      c6Particles).polygon90 = [⟨0, 0⟩, ⟨1, 0⟩, ⟨1, 1⟩] ∧
    (⟨0, 1⟩ : Pt) ∉ (ProbabilityCalculator.calculate c6Dist (fun _ => 0)
      c6Particles).polygon90 ∧
    (ProbabilityCalculator.calculate c6Dist (fun _ => 0)
      c6Particles).polygon90.length = 3 := by
  have h45 : ⌊(9 / 2 : ℚ)⌋ = (4 : ℤ) := Int.floor_eq_iff.mpr (by norm_num)
  norm_num [ProbabilityCalculator.calculate,
    ProbabilityCalculator.calculateCentroid,
    ProbabilityCalculator.createPolygon, ProbabilityCalculator.convexHull,
    ProbabilityCalculator.halfHull, ProbabilityCalculator.hullStep,
    ProbabilityCalculator.cross, c6Particles, c6Dist, distLE, latLngLE, h45]

/-- C6 (amended): for the five scenario particles, the containment
calculator takes the `floor(0.9 * 5) = 4`-element prefix of the particles
sorted by distance to the centroid (0.5, 0.5), and for every distance
function realizing the haversine's ordering at these points (centre nearest;
latitude-1 corners strictly nearer than latitude-0 corners, which are
pairwise equidistant) the 90% polygon is the counter-clockwise triangle
[(0,0), (1,0), (1,1)] — the square's vertex (0,1) is dropped with the
prefix. -/
theorem c6_polygon90_amended (dist : ℚ → ℚ → ℚ → ℚ → ℚ) (sqrtF : ℚ → ℚ)
    (h1 : dist 0.5 0.5 0.5 0.5 < dist 1 0 0.5 0.5)
    (h2 : dist 1 0 0.5 0.5 = dist 1 1 0.5 0.5)
    (h3 : dist 1 1 0.5 0.5 < dist 0 0 0.5 0.5)
    (h4 : dist 0 0 0.5 0.5 = dist 0 1 0.5 0.5) :
    (ProbabilityCalculator.calculate dist sqrtF c6Particles).polygon90 =
      [⟨0, 0⟩, ⟨1, 0⟩, ⟨1, 1⟩] ∧
    (⟨0, 1⟩ : Pt) ∉
      (ProbabilityCalculator.calculate dist sqrtF c6Particles).polygon90 := by
  have h45 : ⌊(9 / 2 : ℚ)⌋ = (4 : ℤ) := Int.floor_eq_iff.mpr (by norm_num)
  norm_num at h1 h2 h3 h4
  have nA := not_le.mpr (h2 ▸ h1)
  have nB := not_le.mpr h1
  have yC := le_of_eq h2
  have hc0 := lt_trans (h2 ▸ h1) h3
  have nG := not_le.mpr hc0
  have nD := not_le.mpr (h4 ▸ hc0)
  have h10lt00 := h2.symm ▸ h3
  have nH := not_le.mpr h10lt00
  have nE := not_le.mpr (h4 ▸ h10lt00)
  have nF := not_le.mpr (h4 ▸ h3)
  have nI := not_le.mpr h3
  have yJ := le_of_eq h4
  norm_num [ProbabilityCalculator.calculate,
    ProbabilityCalculator.calculateCentroid,
    ProbabilityCalculator.createPolygon, ProbabilityCalculator.convexHull,
    ProbabilityCalculator.halfHull, ProbabilityCalculator.hullStep,
    ProbabilityCalculator.cross, c6Particles, distLE, latLngLE, h45,
    nA, nB, yC, nD, nE, nF, nG, nH, nI, yJ]

/-- Witness for the amended hull claim: `c6Dist` satisfies the haversine's
ordering at the five scenario points, and the resulting 90% polygon is the
triangle. -/
theorem c6_witness :
    (ProbabilityCalculator.calculate c6Dist (fun _ => 0)
      c6Particles).polygon90 = [⟨0, 0⟩, ⟨1, 0⟩, ⟨1, 1⟩] ∧
    (⟨0, 1⟩ : Pt) ∉ (ProbabilityCalculator.calculate c6Dist (fun _ => 0)
      c6Particles).polygon90 :=
  c6_polygon90_amended c6Dist (fun _ => 0) (by norm_num [c6Dist])
    (by norm_num [c6Dist]) (by norm_num [c6Dist]) (by norm_num [c6Dist])

/-- Witness for the heat-map claim on a one-particle list. -/
theorem c8_witness :
    (∀ c ∈ (DensityAnalyzer.analyze 0.01 [pOrigin]).heatMap,
      c.weight = (c.count : ℚ) /
        ((DensityAnalyzer.analyze 0.01 [pOrigin]).maxDensity : ℚ) ∧
      0 < c.weight ∧ c.weight ≤ 1) ∧
    (∃ c ∈ (DensityAnalyzer.analyze 0.01 [pOrigin]).heatMap, c.weight = 1) ∧
    List.Sorted heatGE (DensityAnalyzer.analyze 0.01 [pOrigin]).heatMap :=
  c8_heatmap_weights_and_order 0.01 [pOrigin] ⟨pOrigin, by simp, rfl⟩
